import Mathlib

/-!
Shallow embedding of the configuration lifecycle and reload-arbitration
engine of `pkg/haproxy/instance.go` (HAProxy Ingress controller).

The `instance` struct owns two configuration slots (`oldConfig`,
`curConfig`).  `Update` drives one cycle: build phases, structural
comparison, dynamic (live) update, optional template write, rotation of
the slots via `clearConfig`, and finally either a validation + success
log or a reload of the external process.  `check` and `reload` run
external commands.

External collaborators (the config builder, the dynamic updater, the
template writer, and the subprocess runner) are modelled by an
environment record `Env` that fixes their behaviour for one cycle, and
every observable side effect (log lines, timer ticks, subprocess
executions, calls into collaborators) is recorded in an event trace.
-/

namespace Haproxy

/-- Mirror of Go `InstanceOptions` (only fields read by the embedded code). -/
structure InstanceOptions where
  maxOldConfigFiles : Nat
  haproxyCmd : String
  haproxyConfigFile : String
  reloadCmd : String
  reloadStrategy : String
  sortBackends : Bool
  validateConfig : Bool
  deriving Repr

/-- The two generation slots owned by the Go `instance` struct.
`none` models a nil `Config` pointer; `Cfg` is the opaque generation
object (identity matters, content is external). -/
structure InstanceState (Cfg : Type) where
  oldConfig : Option Cfg
  curConfig : Option Cfg
  deriving Repr

/-- Observable side effects of one cycle, in program order:
leveled log lines, timer ticks, subprocess executions, and the calls
into the external collaborators. -/
inductive Event where
  | logInfo (msg : String)
  | logInfoV (lvl : Nat) (msg : String)
  | logWarn (msg : String)
  | logError (msg : String)
  | tick (label : String)
  | buildFrontendGroup
  | buildBackendMaps
  | equalsCheck
  | dynUpdate
  | sortEndpoints
  | writeTmpl
  | checkCall
  | reloadCall
  | execCmd (cmd : String) (args : List String)
  deriving DecidableEq, Repr

/-- Result of one `exec.Command(...).CombinedOutput()` call:
the combined output text and the exit error (`none` = zero exit). -/
structure ExecResult where
  out : String
  err : Option String
  deriving Repr

/-- Behaviour of the external collaborators during one `Update` cycle:
the outcomes of the two build phases, the structural equality predicate,
the dynamic updater's report `(updated, cmdCnt)`, the template writer's
outcome, and the subprocess results for validation and reload. -/
structure Env (Cfg : Type) where
  buildFrontendGroupErr : Option String
  buildBackendMapsErr : Option String
  equals : Cfg → Option Cfg → Bool
  updated : Bool
  cmdCnt : Nat
  writeErr : Option String
  checkExec : ExecResult
  reloadExec : ExecResult

/-- Go `instance.clearConfig`: rotate `curConfig` into `oldConfig` and
clear `curConfig`. -/
def clearConfig (i : InstanceState Cfg) : InstanceState Cfg :=
  { oldConfig := i.curConfig, curConfig := none }

/-- Go `instance.Config`: lazily create the current generation.
`fresh` stands for the result of `createConfig(...)`. -/
def config (i : InstanceState Cfg) (fresh : Cfg) : Cfg × InstanceState Cfg :=
  match i.curConfig with
  | none => (fresh, { oldConfig := i.oldConfig, curConfig := some fresh })
  | some c => (c, i)

/-- Go `instance.check`: skip when no haproxy command is configured;
otherwise run `haproxyCmd -c -f haproxyConfigFile` and on non-zero exit
return the combined output text verbatim as the error. -/
def check (opts : InstanceOptions) (ex : ExecResult) : Option String × List Event :=
  if opts.haproxyCmd = "" then
    (none, [Event.logInfo "(test) check was skipped"])
  else
    let evs := [Event.execCmd opts.haproxyCmd ["-c", "-f", opts.haproxyConfigFile]]
    match ex.err with
    | some _ => (some ex.out, evs)
    | none => (none, evs)

/-- Go `instance.reload`: skip when no reload command is configured;
otherwise run `reloadCmd reloadStrategy haproxyConfigFile`, warn-log any
non-empty output, and return the exit error. -/
def reload (opts : InstanceOptions) (ex : ExecResult) : Option String × List Event :=
  if opts.reloadCmd = "" then
    (none, [Event.logInfo "(test) reload was skipped"])
  else
    let evs := [Event.execCmd opts.reloadCmd [opts.reloadStrategy, opts.haproxyConfigFile]]
    let evs := if ex.out.length > 0 then
        evs ++ [Event.logWarn ("output from haproxy:\n" ++ ex.out)]
      else evs
    match ex.err with
    | some e => (some e, evs)
    | none => (none, evs)

/-- Tail of `instance.Update` from the unconditional `clearConfig()`
call onwards (Go lines 158-179): rotate, then either confirm the live
update (optionally validating) or reload the external process. -/
def updateTail (opts : InstanceOptions) (env : Env Cfg) (i : InstanceState Cfg) :
    InstanceState Cfg × List Event :=
  let i2 := clearConfig i
  if env.updated = true then
    if env.cmdCnt > 0 then
      let evs :=
        if opts.validateConfig = true then
          let r := check opts env.checkExec
          (Event.checkCall :: r.2) ++
            (match r.1 with
              | some e => [Event.logError ("error validating config file:\n" ++ e)]
              | none => []) ++ [Event.tick "validate"]
        else []
      (i2, evs ++
        [Event.logInfo ("HAProxy updated without needing to reload. Commands sent: "
          ++ toString env.cmdCnt)])
    else
      (i2, [Event.logInfo "old and new configurations match"])
  else
    let r := reload opts env.reloadExec
    match r.1 with
    | some e =>
      (i2, (Event.reloadCall :: r.2) ++ [Event.logError ("error reloading server:\n" ++ e)])
    | none =>
      (i2, (Event.reloadCall :: r.2) ++
        [Event.tick "reload", Event.logInfo "HAProxy successfully reloaded"])

/-- Go `instance.Update`: one full cycle.  Returns the state of the two
slots after the cycle and the trace of observable effects, in order. -/
def update (opts : InstanceOptions) (env : Env Cfg) (i : InstanceState Cfg) :
    InstanceState Cfg × List Event :=
  match i.curConfig with
  | none => (i, [Event.logInfo "new configuration is empty"])
  | some cur =>
    match env.buildFrontendGroupErr with
    | some e =>
      (clearConfig i,
        [Event.buildFrontendGroup,
         Event.logError ("error building configuration group: " ++ e)])
    | none =>
    match env.buildBackendMapsErr with
    | some e =>
      (clearConfig i,
        [Event.buildFrontendGroup, Event.buildBackendMaps,
         Event.logError ("error building backend maps: " ++ e)])
    | none =>
    if env.equals cur i.oldConfig = true then
      (clearConfig i,
        [Event.buildFrontendGroup, Event.buildBackendMaps, Event.equalsCheck,
         Event.logInfoV 2 "old and new configurations match, skipping reload"])
    else
      let pre := [Event.buildFrontendGroup, Event.buildBackendMaps,
                  Event.equalsCheck, Event.dynUpdate]
      let pre := if opts.sortBackends = true then pre ++ [Event.sortEndpoints] else pre
      if env.updated = false ∨ env.cmdCnt > 0 then
        let pre2 := pre ++ [Event.writeTmpl, Event.tick "writeTmpl"]
        match env.writeErr with
        | some e =>
          (clearConfig i, pre2 ++ [Event.logError ("error writing configuration: " ++ e)])
        | none =>
          let t := updateTail opts env i
          (t.1, pre2 ++ t.2)
      else
        let t := updateTail opts env i
        (t.1, pre ++ t.2)


/-- Events that are irrelevant to the patch/write/reload ordering
discipline (logs, ticks, collaborator calls other than the three
ordered operations). -/
def neutralEv : Event → Bool
  | Event.dynUpdate => false
  | Event.writeTmpl => false
  | Event.reloadCall => false
  | _ => true

/-- One step of the ordering automaton: phase 0 = before the dynamic
update, phase 1 = after it, phase 2 = after the template write.  The
dynamic update may only happen in phase 0 (and exactly once), a write
only in phase 1, a reload only in phase 2 (after a write).  All other
events leave the phase unchanged. -/
def phaseStep (ph : Nat) (e : Event) : Option Nat :=
  match e with
  | Event.dynUpdate => if ph = 0 then some 1 else none
  | Event.writeTmpl => if ph = 1 then some 2 else none
  | Event.reloadCall => if ph = 2 then some 2 else none
  | _ => some ph

/-- Run the ordering automaton over a trace: `true` iff the trace obeys
patch-before-write and write-before-reload. -/
def orderOK : List Event → Nat → Bool
  | [], _ => true
  | e :: t, ph =>
    match phaseStep ph e with
    | none => false
    | some ph2 => orderOK t ph2

/-- Sample options for concrete witnesses. -/
def opts0 : InstanceOptions :=
  { maxOldConfigFiles := 0, haproxyCmd := "haproxy",
    haproxyConfigFile := "/etc/haproxy/haproxy.cfg", reloadCmd := "/haproxy-reload.sh",
    reloadStrategy := "reusesocket", sortBackends := false, validateConfig := true }

/-- Sample environment: both builds succeed, the configurations differ,
the dynamic updater reports `(false, 0)`, and every external command
succeeds. -/
def envBase : Env Nat :=
  { buildFrontendGroupErr := none, buildBackendMapsErr := none,
    equals := fun _ _ => false, updated := false, cmdCnt := 0, writeErr := none,
    checkExec := { out := "", err := none }, reloadExec := { out := "", err := none } }

/-- Environment in which the template write fails. -/
def envWriteFail : Env Nat := { envBase with writeErr := some "no space left on device" }

/-- Environment in which the configurations compare equal. -/
def envEqual : Env Nat := { envBase with equals := fun _ _ => true }

/-- Environment of a successful live update (one command) whose
subsequent validation fails. -/
def envValFail : Env Nat :=
  { envBase with
    updated := true, cmdCnt := 1,
    checkExec := { out := "config check failed", err := some "exit status 1" } }

/-- An instance with a pending current generation and no old one. -/
def instA : InstanceState Nat := { oldConfig := none, curConfig := some 1 }

/-- An instance with no pending current generation. -/
def instNil : InstanceState Nat := { oldConfig := some 7, curConfig := none }

/-- A failing subprocess run. -/
def exFail : ExecResult := { out := "bad config", err := some "exit status 1" }

/-! ### Helper lemmas about the traces of the embedded functions -/

lemma mem_check_snd {opts : InstanceOptions} {ex : ExecResult} {e : Event}
    (h : e ∈ (check opts ex).2) :
    (∃ s, e = Event.logInfo s) ∨ ∃ c a, e = Event.execCmd c a := by
  unfold check at h
  split at h
  · simp at h
    exact Or.inl ⟨_, h⟩
  · dsimp only at h
    split at h <;> simp at h <;> exact Or.inr ⟨_, _, h⟩

lemma mem_reload_snd {opts : InstanceOptions} {ex : ExecResult} {e : Event}
    (h : e ∈ (reload opts ex).2) :
    (∃ s, e = Event.logInfo s) ∨ (∃ s, e = Event.logWarn s) ∨
      ∃ c a, e = Event.execCmd c a := by
  unfold reload at h
  split at h
  · simp at h
    exact Or.inl ⟨_, h⟩
  · dsimp only at h
    split at h <;> split at h <;>
      simp only [List.mem_append, List.mem_cons, List.mem_singleton,
        List.not_mem_nil, or_false, false_or] at h
    · rcases h with rfl | rfl
      · exact Or.inr (Or.inr ⟨_, _, rfl⟩)
      · exact Or.inr (Or.inl ⟨_, rfl⟩)
    · subst h
      exact Or.inr (Or.inr ⟨_, _, rfl⟩)
    · rcases h with rfl | rfl
      · exact Or.inr (Or.inr ⟨_, _, rfl⟩)
      · exact Or.inr (Or.inl ⟨_, rfl⟩)
    · subst h
      exact Or.inr (Or.inr ⟨_, _, rfl⟩)

lemma updateTail_fst (opts : InstanceOptions) (env : Env Cfg) (i : InstanceState Cfg) :
    (updateTail opts env i).1 = clearConfig i := by
  unfold updateTail
  dsimp only
  split
  · split <;> rfl
  · split <;> rfl

lemma mem_updateTail_snd {opts : InstanceOptions} {env : Env Cfg} {i : InstanceState Cfg}
    {e : Event} (h : e ∈ (updateTail opts env i).2) :
    e = Event.checkCall ∨ e = Event.reloadCall ∨ (∃ s, e = Event.logInfo s) ∨
      (∃ s, e = Event.logWarn s) ∨ (∃ s, e = Event.logError s) ∨ (∃ s, e = Event.tick s) ∨
      ∃ c a, e = Event.execCmd c a := by
  unfold updateTail at h
  dsimp only at h
  split at h
  · split at h
    · dsimp only at h
      rw [List.mem_append] at h
      rcases h with h | h
      · split at h
        · simp only [List.append_assoc, List.cons_append, List.mem_cons, List.mem_append,
            List.mem_singleton, List.not_mem_nil, or_false] at h
          rcases h with rfl | h | h | rfl
          · exact Or.inl rfl
          · rcases mem_check_snd h with ⟨s, hs⟩ | ⟨c, a, hs⟩
            · exact Or.inr (Or.inr (Or.inl ⟨s, hs⟩))
            · exact Or.inr (Or.inr (Or.inr (Or.inr (Or.inr (Or.inr ⟨c, a, hs⟩)))))
          · split at h <;> simp at h
            subst h
            exact Or.inr (Or.inr (Or.inr (Or.inr (Or.inl ⟨_, rfl⟩))))
          · exact Or.inr (Or.inr (Or.inr (Or.inr (Or.inr (Or.inl ⟨_, rfl⟩)))))
        · simp at h
      · simp at h
        subst h
        exact Or.inr (Or.inr (Or.inl ⟨_, rfl⟩))
    · simp at h
      subst h
      exact Or.inr (Or.inr (Or.inl ⟨_, rfl⟩))
  · split at h <;>
      simp only [List.cons_append, List.mem_cons, List.mem_append, List.mem_singleton,
        List.not_mem_nil, or_false] at h
    · rcases h with rfl | h | rfl
      · exact Or.inr (Or.inl rfl)
      · rcases mem_reload_snd h with ⟨s, hs⟩ | ⟨s, hs⟩ | ⟨c, a, hs⟩
        · exact Or.inr (Or.inr (Or.inl ⟨s, hs⟩))
        · exact Or.inr (Or.inr (Or.inr (Or.inl ⟨s, hs⟩)))
        · exact Or.inr (Or.inr (Or.inr (Or.inr (Or.inr (Or.inr ⟨c, a, hs⟩)))))
      · exact Or.inr (Or.inr (Or.inr (Or.inr (Or.inl ⟨_, rfl⟩))))
    · rcases h with rfl | h | rfl | rfl
      · exact Or.inr (Or.inl rfl)
      · rcases mem_reload_snd h with ⟨s, hs⟩ | ⟨s, hs⟩ | ⟨c, a, hs⟩
        · exact Or.inr (Or.inr (Or.inl ⟨s, hs⟩))
        · exact Or.inr (Or.inr (Or.inr (Or.inl ⟨s, hs⟩)))
        · exact Or.inr (Or.inr (Or.inr (Or.inr (Or.inr (Or.inr ⟨c, a, hs⟩)))))
      · exact Or.inr (Or.inr (Or.inr (Or.inr (Or.inr (Or.inl ⟨_, rfl⟩)))))
      · exact Or.inr (Or.inr (Or.inl ⟨_, rfl⟩))

lemma mem_updateTail_updated {opts : InstanceOptions} {env : Env Cfg} {i : InstanceState Cfg}
    {e : Event} (hu : env.updated = true) (h : e ∈ (updateTail opts env i).2) :
    e = Event.checkCall ∨ (∃ s, e = Event.logInfo s) ∨ (∃ s, e = Event.logError s) ∨
      (∃ s, e = Event.tick s) ∨ ∃ c a, e = Event.execCmd c a := by
  unfold updateTail at h
  dsimp only at h
  split at h
  · split at h
    · dsimp only at h
      rw [List.mem_append] at h
      rcases h with h | h
      · split at h
        · simp only [List.append_assoc, List.cons_append, List.mem_cons, List.mem_append,
            List.mem_singleton, List.not_mem_nil, or_false] at h
          rcases h with rfl | h | h | rfl
          · exact Or.inl rfl
          · rcases mem_check_snd h with ⟨s, hs⟩ | ⟨c, a, hs⟩
            · exact Or.inr (Or.inl ⟨s, hs⟩)
            · exact Or.inr (Or.inr (Or.inr (Or.inr ⟨c, a, hs⟩)))
          · split at h <;> simp at h
            subst h
            exact Or.inr (Or.inr (Or.inl ⟨_, rfl⟩))
          · exact Or.inr (Or.inr (Or.inr (Or.inl ⟨_, rfl⟩)))
        · simp at h
      · simp at h
        subst h
        exact Or.inr (Or.inl ⟨_, rfl⟩)
    · simp at h
      subst h
      exact Or.inr (Or.inl ⟨_, rfl⟩)
  · next hne => exact absurd hu hne

lemma writeTmpl_not_mem_updateTail (opts : InstanceOptions) (env : Env Cfg)
    (i : InstanceState Cfg) : Event.writeTmpl ∉ (updateTail opts env i).2 := by
  intro h
  rcases mem_updateTail_snd h with h | h | ⟨s, h⟩ | ⟨s, h⟩ | ⟨s, h⟩ | ⟨s, h⟩ | ⟨c, a, h⟩ <;>
    simp at h

lemma dynUpdate_not_mem_updateTail (opts : InstanceOptions) (env : Env Cfg)
    (i : InstanceState Cfg) : Event.dynUpdate ∉ (updateTail opts env i).2 := by
  intro h
  rcases mem_updateTail_snd h with h | h | ⟨s, h⟩ | ⟨s, h⟩ | ⟨s, h⟩ | ⟨s, h⟩ | ⟨c, a, h⟩ <;>
    simp at h

/-- When `updated = false`, the tail of the cycle is exactly a reload
call followed by ordering-neutral events. -/
lemma updateTail_not_updated {opts : InstanceOptions} {env : Env Cfg} {i : InstanceState Cfg}
    (hu : env.updated = false) :
    ∃ rest, (updateTail opts env i).2 = Event.reloadCall :: rest ∧
      ∀ e ∈ rest, neutralEv e = true := by
  unfold updateTail
  dsimp only
  split
  · next hne => rw [hu] at hne; exact absurd hne (by simp)
  · split
    · next e heq =>
      refine ⟨_, List.cons_append _ _ _, ?_⟩
      intro x hx
      rw [List.mem_append] at hx
      rcases hx with hx | hx
      · rcases mem_reload_snd hx with ⟨s, rfl⟩ | ⟨s, rfl⟩ | ⟨c, a, rfl⟩ <;> rfl
      · simp at hx
        subst hx
        rfl
    · next heq =>
      refine ⟨_, List.cons_append _ _ _, ?_⟩
      intro x hx
      rw [List.mem_append] at hx
      rcases hx with hx | hx
      · rcases mem_reload_snd hx with ⟨s, rfl⟩ | ⟨s, rfl⟩ | ⟨c, a, rfl⟩ <;> rfl
      · simp at hx
        rcases hx with rfl | rfl <;> rfl

lemma reloadCall_mem_updateTail_iff (opts : InstanceOptions) (env : Env Cfg)
    (i : InstanceState Cfg) :
    Event.reloadCall ∈ (updateTail opts env i).2 ↔ env.updated = false := by
  constructor
  · intro h
    cases hu : env.updated
    · rfl
    · exfalso
      rcases mem_updateTail_updated hu h with h | ⟨s, h⟩ | ⟨s, h⟩ | ⟨s, h⟩ | ⟨c, a, h⟩ <;>
        simp at h
  · intro hu
    obtain ⟨rest, heq, -⟩ := updateTail_not_updated hu
    rw [heq]
    exact List.mem_cons_self _ _

/-! ### Ordering automaton lemmas -/

lemma phaseStep_neutral {e : Event} (h : neutralEv e = true) (ph : Nat) :
    phaseStep ph e = some ph := by
  cases e <;> first | rfl | simp [neutralEv] at h

lemma orderOK_cons_neutral (e : Event) (h : neutralEv e = true) (t : List Event) (ph : Nat) :
    orderOK (e :: t) ph = orderOK t ph := by
  rw [orderOK, phaseStep_neutral h]

lemma orderOK_append_neutral {l1 : List Event} (h : ∀ e ∈ l1, neutralEv e = true)
    (l2 : List Event) (ph : Nat) : orderOK (l1 ++ l2) ph = orderOK l2 ph := by
  induction l1 with
  | nil => rfl
  | cons e t ih =>
    rw [List.cons_append, orderOK_cons_neutral e (h e (List.mem_cons_self _ _)),
      ih fun x hx => h x (List.mem_cons_of_mem _ hx)]

lemma orderOK_of_neutral {l : List Event} (h : ∀ e ∈ l, neutralEv e = true) (ph : Nat) :
    orderOK l ph = true := by
  induction l with
  | nil => rfl
  | cons e t ih =>
    rw [orderOK_cons_neutral e (h e (List.mem_cons_self _ _))]
    exact ih fun x hx => h x (List.mem_cons_of_mem _ hx)

lemma orderOK_updateTail_updated {opts : InstanceOptions} {env : Env Cfg}
    {i : InstanceState Cfg} (hu : env.updated = true) (ph : Nat) :
    orderOK (updateTail opts env i).2 ph = true := by
  refine orderOK_of_neutral (fun e he => ?_) ph
  rcases mem_updateTail_updated hu he with rfl | ⟨s, rfl⟩ | ⟨s, rfl⟩ | ⟨s, rfl⟩ | ⟨c, a, rfl⟩ <;>
    rfl

lemma orderOK_updateTail_two (opts : InstanceOptions) (env : Env Cfg)
    (i : InstanceState Cfg) : orderOK (updateTail opts env i).2 2 = true := by
  cases hu : env.updated
  · obtain ⟨rest, heq, hn⟩ := updateTail_not_updated hu
    rw [heq, orderOK]
    have : phaseStep 2 Event.reloadCall = some 2 := rfl
    rw [this]
    exact orderOK_of_neutral hn 2
  · exact orderOK_updateTail_updated hu 2

/-! ### Characterization of `update` -/

/-- Whenever a current generation is pending, every path through
`update` rotates it into the old slot. -/
lemma update_fst {opts : InstanceOptions} {env : Env Cfg} {i : InstanceState Cfg} {cur : Cfg}
    (hc : i.curConfig = some cur) :
    (update opts env i).1 = clearConfig i := by
  unfold update
  simp only [hc]
  split
  · rfl
  · split
    · rfl
    · split
      · rfl
      · split
        · split
          · rfl
          · simp [updateTail_fst]
        · simp [updateTail_fst]

/-- The trace of a cycle that reaches the patch step: the fixed prefix
(builds, comparison, dynamic update, optional sort), then the optional
write section, then the tail. -/
lemma update_snd_eq {opts : InstanceOptions} {env : Env Cfg} {i : InstanceState Cfg} {cur : Cfg}
    (hc : i.curConfig = some cur) (h1 : env.buildFrontendGroupErr = none)
    (h2 : env.buildBackendMapsErr = none) (h4 : env.equals cur i.oldConfig = false) :
    (update opts env i).2 =
      (if opts.sortBackends = true then
        [Event.buildFrontendGroup, Event.buildBackendMaps, Event.equalsCheck,
         Event.dynUpdate, Event.sortEndpoints]
       else
        [Event.buildFrontendGroup, Event.buildBackendMaps, Event.equalsCheck,
         Event.dynUpdate]) ++
      (if env.updated = false ∨ env.cmdCnt > 0 then
        [Event.writeTmpl, Event.tick "writeTmpl"] ++
          (match env.writeErr with
            | some e => [Event.logError ("error writing configuration: " ++ e)]
            | none => (updateTail opts env i).2)
       else (updateTail opts env i).2) := by
  unfold update
  simp only [hc, h1, h2, h4, Bool.false_eq_true, if_false]
  split
  · split <;> simp [*]
  · simp [*]

/-! ### Claim theorems -/

/-- C5: If `Update` is invoked while the current slot is absent, it
logs informationally and returns immediately: the state is unchanged
(no rotation, the old slot untouched) and the trace holds nothing but
the informational log line — no build, write, validate, or reload
operation is performed. -/
theorem update_nil_config (opts : InstanceOptions) (env : Env Cfg) (i : InstanceState Cfg)
    (hc : i.curConfig = none) :
    update opts env i = (i, [Event.logInfo "new configuration is empty"]) := by
  unfold update
  simp only [hc]

theorem update_nil_config_witness :
    instNil.curConfig = none ∧
      update opts0 envBase instNil = (instNil, [Event.logInfo "new configuration is empty"]) :=
  ⟨rfl, update_nil_config opts0 envBase instNil rfl⟩

/-- C3: For every cycle that starts with a non-absent current
generation, whatever terminal path is taken, rotation happens exactly
once: afterwards the old slot holds the generation that was current
before the cycle and the current slot is absent. -/
theorem update_rotation (opts : InstanceOptions) (env : Env Cfg) (i : InstanceState Cfg)
    (cur : Cfg) (hc : i.curConfig = some cur) :
    (update opts env i).1.oldConfig = some cur ∧ (update opts env i).1.curConfig = none := by
  rw [update_fst hc]
  exact ⟨by rw [clearConfig, hc], rfl⟩

theorem update_rotation_witness :
    instA.curConfig = some 1 ∧
      (update opts0 envBase instA).1.oldConfig = some 1 ∧
      (update opts0 envBase instA).1.curConfig = none :=
  ⟨rfl, update_rotation opts0 envBase instA 1 rfl⟩

/-- C6: When both build phases succeed and the current generation
compares equal to the old one, the cycle performs no template write,
issues no dynamic-update call, performs no reload, and rotates current
into old unchanged. -/
theorem update_equal_skip (opts : InstanceOptions) (env : Env Cfg) (i : InstanceState Cfg)
    (cur : Cfg) (hc : i.curConfig = some cur) (h1 : env.buildFrontendGroupErr = none)
    (h2 : env.buildBackendMapsErr = none) (heq : env.equals cur i.oldConfig = true) :
    (update opts env i).1 = { oldConfig := some cur, curConfig := none } ∧
      Event.writeTmpl ∉ (update opts env i).2 ∧
      Event.dynUpdate ∉ (update opts env i).2 ∧
      Event.reloadCall ∉ (update opts env i).2 := by
  have htr : update opts env i =
      ({ oldConfig := some cur, curConfig := none },
        [Event.buildFrontendGroup, Event.buildBackendMaps, Event.equalsCheck,
         Event.logInfoV 2 "old and new configurations match, skipping reload"]) := by
    unfold update
    simp only [hc, h1, h2, heq]
    simp [clearConfig, hc]
  rw [htr]
  refine ⟨rfl, ?_, ?_, ?_⟩ <;> simp

theorem update_equal_skip_witness :
    (instA.curConfig = some 1 ∧ envEqual.buildFrontendGroupErr = none ∧
      envEqual.buildBackendMapsErr = none ∧ envEqual.equals 1 instA.oldConfig = true) ∧
    ((update opts0 envEqual instA).1 = { oldConfig := some 1, curConfig := none } ∧
      Event.writeTmpl ∉ (update opts0 envEqual instA).2 ∧
      Event.dynUpdate ∉ (update opts0 envEqual instA).2 ∧
      Event.reloadCall ∉ (update opts0 envEqual instA).2) :=
  ⟨⟨rfl, rfl, rfl, rfl⟩, update_equal_skip opts0 envEqual instA 1 rfl rfl rfl rfl⟩

/-- C1: In a cycle where both build phases succeed and the current
generation is not equal to the old one, the on-disk template write is
performed iff the dynamic updater reported `updated = false` or
`cmdCnt > 0`; in the exact case `updated = true` and `cmdCnt = 0` no
write occurs.  This holds for every `(updated, cmdCnt)` pair. -/
theorem update_write_gating (opts : InstanceOptions) (env : Env Cfg) (i : InstanceState Cfg)
    (cur : Cfg) (hc : i.curConfig = some cur) (h1 : env.buildFrontendGroupErr = none)
    (h2 : env.buildBackendMapsErr = none) (h4 : env.equals cur i.oldConfig = false) :
    Event.writeTmpl ∈ (update opts env i).2 ↔ (env.updated = false ∨ env.cmdCnt > 0) := by
  rw [update_snd_eq hc h1 h2 h4, List.mem_append]
  have hpre : Event.writeTmpl ∉
      (if opts.sortBackends = true then
        [Event.buildFrontendGroup, Event.buildBackendMaps, Event.equalsCheck,
         Event.dynUpdate, Event.sortEndpoints]
       else
        [Event.buildFrontendGroup, Event.buildBackendMaps, Event.equalsCheck,
         Event.dynUpdate]) := by
    split <;> simp
  constructor
  · rintro (h | h)
    · exact absurd h hpre
    · by_cases hcond : env.updated = false ∨ env.cmdCnt > 0
      · exact hcond
      · rw [if_neg hcond] at h
        exact absurd h (writeTmpl_not_mem_updateTail _ _ _)
  · intro hcond
    rw [if_pos hcond]
    right
    simp

theorem update_write_gating_witness :
    instA.curConfig = some 1 ∧
      (Event.writeTmpl ∈ (update opts0 envBase instA).2 ↔
        (envBase.updated = false ∨ envBase.cmdCnt > 0)) :=
  ⟨rfl, update_write_gating opts0 envBase instA 1 rfl rfl rfl rfl⟩

/-- C4: If the template write step fails, the cycle logs the error,
rotates current into old, and returns without ever invoking the reload
procedure. -/
theorem update_write_failure_no_reload (opts : InstanceOptions) (env : Env Cfg)
    (i : InstanceState Cfg) (cur : Cfg) (werr : String) (hc : i.curConfig = some cur)
    (h1 : env.buildFrontendGroupErr = none) (h2 : env.buildBackendMapsErr = none)
    (h4 : env.equals cur i.oldConfig = false)
    (hcond : env.updated = false ∨ env.cmdCnt > 0) (hw : env.writeErr = some werr) :
    Event.logError ("error writing configuration: " ++ werr) ∈ (update opts env i).2 ∧
      (update opts env i).1 = { oldConfig := some cur, curConfig := none } ∧
      Event.reloadCall ∉ (update opts env i).2 := by
  have htr : (update opts env i).2 =
      (if opts.sortBackends = true then
        [Event.buildFrontendGroup, Event.buildBackendMaps, Event.equalsCheck,
         Event.dynUpdate, Event.sortEndpoints]
       else
        [Event.buildFrontendGroup, Event.buildBackendMaps, Event.equalsCheck,
         Event.dynUpdate]) ++
      ([Event.writeTmpl, Event.tick "writeTmpl"] ++
        [Event.logError ("error writing configuration: " ++ werr)]) := by
    rw [update_snd_eq hc h1 h2 h4, if_pos hcond, hw]
  refine ⟨?_, ?_, ?_⟩
  · rw [htr]
    simp
  · rw [update_fst hc]
    simp [clearConfig, hc]
  · rw [htr]
    intro h
    rw [List.mem_append] at h
    rcases h with h | h
    · revert h
      split <;> simp
    · simp at h

theorem update_write_failure_no_reload_witness :
    (instA.curConfig = some 1 ∧ envWriteFail.updated = false ∧
      envWriteFail.writeErr = some "no space left on device") ∧
    (Event.logError ("error writing configuration: " ++ "no space left on device") ∈
        (update opts0 envWriteFail instA).2 ∧
      (update opts0 envWriteFail instA).1 = { oldConfig := some 1, curConfig := none } ∧
      Event.reloadCall ∉ (update opts0 envWriteFail instA).2) :=
  ⟨⟨rfl, rfl, rfl⟩,
    update_write_failure_no_reload opts0 envWriteFail instA 1 "no space left on device"
      rfl rfl rfl rfl (Or.inl rfl) rfl⟩

/-- C2 counterexample: a cycle in which the dynamic updater runs and
reports `updated = false` but the template write fails.  The reload
procedure is not invoked, refuting "reload is invoked iff
`updated = false`" as stated. -/
theorem update_reload_gating_cex :
    envWriteFail.buildFrontendGroupErr = none ∧ envWriteFail.buildBackendMapsErr = none ∧
      envWriteFail.equals 1 instA.oldConfig = false ∧ envWriteFail.updated = false ∧
      Event.dynUpdate ∈ (update opts0 envWriteFail instA).2 ∧
      Event.reloadCall ∉ (update opts0 envWriteFail instA).2 := by
  refine ⟨rfl, rfl, rfl, rfl, ?_, ?_⟩ <;> decide

/-- C2 (amended): in a cycle that reaches the patch step, the reload
procedure is invoked iff the dynamic updater reported
`updated = false` and the template write did not fail; it is never
invoked when `updated = true`. -/
theorem update_reload_gating_amended (opts : InstanceOptions) (env : Env Cfg)
    (i : InstanceState Cfg) (cur : Cfg) (hc : i.curConfig = some cur)
    (h1 : env.buildFrontendGroupErr = none) (h2 : env.buildBackendMapsErr = none)
    (h4 : env.equals cur i.oldConfig = false) :
    Event.reloadCall ∈ (update opts env i).2 ↔
      (env.updated = false ∧ env.writeErr = none) := by
  rw [update_snd_eq hc h1 h2 h4, List.mem_append]
  have hpre : Event.reloadCall ∉
      (if opts.sortBackends = true then
        [Event.buildFrontendGroup, Event.buildBackendMaps, Event.equalsCheck,
         Event.dynUpdate, Event.sortEndpoints]
       else
        [Event.buildFrontendGroup, Event.buildBackendMaps, Event.equalsCheck,
         Event.dynUpdate]) := by
    split <;> simp
  constructor
  · rintro (h | h)
    · exact absurd h hpre
    · by_cases hcond : env.updated = false ∨ env.cmdCnt > 0
      · rw [if_pos hcond, List.mem_append] at h
        rcases h with h | h
        · simp at h
        · cases hwe : env.writeErr with
          | some e =>
            rw [hwe] at h
            simp at h
          | none =>
            rw [hwe] at h
            exact ⟨(reloadCall_mem_updateTail_iff _ _ _).mp h, rfl⟩
      · rw [if_neg hcond] at h
        have hu := (reloadCall_mem_updateTail_iff _ _ _).mp h
        exact absurd (Or.inl hu) hcond
  · rintro ⟨hu, hwe⟩
    right
    rw [if_pos (Or.inl hu), hwe, List.mem_append]
    right
    exact (reloadCall_mem_updateTail_iff _ _ _).mpr hu

theorem update_reload_gating_amended_witness :
    instA.curConfig = some 1 ∧
      (Event.reloadCall ∈ (update opts0 envBase instA).2 ↔
        (envBase.updated = false ∧ envBase.writeErr = none)) :=
  ⟨rfl, update_reload_gating_amended opts0 envBase instA 1 rfl rfl rfl rfl⟩

/-- C7: a failing validation after a successful live-apply
(`updated = true`, `cmdCnt > 0`, validation enabled) is only logged:
the cycle still logs the success summary with the command count, never
invokes the reload procedure, and has already rotated current into
old. -/
theorem update_validation_independence (opts : InstanceOptions) (env : Env Cfg)
    (i : InstanceState Cfg) (cur : Cfg) (exErr : String) (hc : i.curConfig = some cur)
    (h1 : env.buildFrontendGroupErr = none) (h2 : env.buildBackendMapsErr = none)
    (h4 : env.equals cur i.oldConfig = false) (hu : env.updated = true)
    (hcnt : env.cmdCnt > 0) (hv : opts.validateConfig = true) (hw : env.writeErr = none)
    (hcmd : ¬opts.haproxyCmd = "") (hfail : env.checkExec.err = some exErr) :
    Event.logError ("error validating config file:\n" ++ env.checkExec.out) ∈
        (update opts env i).2 ∧
      Event.logInfo ("HAProxy updated without needing to reload. Commands sent: "
        ++ toString env.cmdCnt) ∈ (update opts env i).2 ∧
      Event.reloadCall ∉ (update opts env i).2 ∧
      (update opts env i).1 = { oldConfig := some cur, curConfig := none } := by
  have hcheck : check opts env.checkExec =
      (some env.checkExec.out,
        [Event.execCmd opts.haproxyCmd ["-c", "-f", opts.haproxyConfigFile]]) := by
    unfold check
    rw [if_neg hcmd, hfail]
  have htail : (updateTail opts env i).2 =
      (Event.checkCall ::
          [Event.execCmd opts.haproxyCmd ["-c", "-f", opts.haproxyConfigFile]]) ++
        [Event.logError ("error validating config file:\n" ++ env.checkExec.out)] ++
        [Event.tick "validate"] ++
        [Event.logInfo ("HAProxy updated without needing to reload. Commands sent: "
          ++ toString env.cmdCnt)] := by
    unfold updateTail
    dsimp only
    rw [hu, if_pos rfl, if_pos hcnt, hv, if_pos rfl, hcheck]
  have htr : (update opts env i).2 =
      (if opts.sortBackends = true then
        [Event.buildFrontendGroup, Event.buildBackendMaps, Event.equalsCheck,
         Event.dynUpdate, Event.sortEndpoints]
       else
        [Event.buildFrontendGroup, Event.buildBackendMaps, Event.equalsCheck,
         Event.dynUpdate]) ++
      ([Event.writeTmpl, Event.tick "writeTmpl"] ++ (updateTail opts env i).2) := by
    rw [update_snd_eq hc h1 h2 h4, if_pos (Or.inr hcnt), hw]
  refine ⟨?_, ?_, ?_, ?_⟩
  · rw [htr, htail]
    simp
  · rw [htr, htail]
    simp
  · rw [htr]
    intro h
    rw [List.mem_append] at h
    rcases h with h | h
    · revert h
      split <;> simp
    · rw [List.mem_append] at h
      rcases h with h | h
      · simp at h
      · exact absurd ((reloadCall_mem_updateTail_iff _ _ _).mp h) (by simp [hu])
  · rw [update_fst hc]
    simp [clearConfig, hc]

theorem update_validation_independence_witness :
    (instA.curConfig = some 1 ∧ envValFail.updated = true ∧ envValFail.cmdCnt > 0 ∧
      opts0.validateConfig = true ∧ envValFail.checkExec.err = some "exit status 1") ∧
    (Event.logError ("error validating config file:\n" ++ envValFail.checkExec.out) ∈
        (update opts0 envValFail instA).2 ∧
      Event.logInfo ("HAProxy updated without needing to reload. Commands sent: "
        ++ toString envValFail.cmdCnt) ∈ (update opts0 envValFail instA).2 ∧
      Event.reloadCall ∉ (update opts0 envValFail instA).2 ∧
      (update opts0 envValFail instA).1 = { oldConfig := some 1, curConfig := none }) :=
  ⟨⟨rfl, rfl, Nat.zero_lt_one, rfl, rfl⟩,
    update_validation_independence opts0 envValFail instA 1 "exit status 1"
      rfl rfl rfl rfl rfl Nat.zero_lt_one rfl rfl (by decide) rfl⟩

/-- C8: `check` returns success without executing any subprocess when
no validation command is configured; otherwise it executes the command
against the on-disk configuration file, returns success on zero exit,
and on non-zero exit returns an error whose message is the combined
output text verbatim. -/
theorem check_spec (opts : InstanceOptions) (ex : ExecResult) :
    (opts.haproxyCmd = "" →
      (check opts ex).1 = none ∧ ∀ c a, Event.execCmd c a ∉ (check opts ex).2) ∧
    (opts.haproxyCmd ≠ "" →
      Event.execCmd opts.haproxyCmd ["-c", "-f", opts.haproxyConfigFile] ∈
          (check opts ex).2 ∧
        (ex.err = none → (check opts ex).1 = none) ∧
        ∀ e, ex.err = some e → (check opts ex).1 = some ex.out) := by
  constructor
  · intro hq
    unfold check
    rw [if_pos hq]
    refine ⟨rfl, fun c a h => ?_⟩
    simp at h
  · intro hq
    unfold check
    rw [if_neg hq]
    dsimp only
    refine ⟨?_, ?_, ?_⟩
    · cases hce : ex.err <;> simp
    · intro he
      rw [he]
    · intro e he
      rw [he]

theorem check_spec_witness :
    opts0.haproxyCmd ≠ "" ∧ (check opts0 exFail).1 = some "bad config" ∧
      Event.execCmd "haproxy" ["-c", "-f", "/etc/haproxy/haproxy.cfg"] ∈
        (check opts0 exFail).2 := by
  have h := (check_spec opts0 exFail).2 (by decide)
  exact ⟨by decide, h.2.2 "exit status 1" rfl, h.1⟩

lemma orderOK_cons_dynUpdate (t : List Event) :
    orderOK (Event.dynUpdate :: t) 0 = orderOK t 1 := rfl

lemma orderOK_cons_writeTmpl (t : List Event) :
    orderOK (Event.writeTmpl :: t) 1 = orderOK t 2 := rfl

/-- C9: in every cycle that reaches the patch step, the single
dynamic-update call precedes any template write, and any template
write precedes any reload invocation; a reload is never requested
before the artifacts have been written.  (Expressed by running the
ordering automaton `orderOK` over the cycle's trace.) -/
theorem update_ordering (opts : InstanceOptions) (env : Env Cfg) (i : InstanceState Cfg)
    (cur : Cfg) (hc : i.curConfig = some cur) (h1 : env.buildFrontendGroupErr = none)
    (h2 : env.buildBackendMapsErr = none) (h4 : env.equals cur i.oldConfig = false) :
    orderOK (update opts env i).2 0 = true := by
  rw [update_snd_eq hc h1 h2 h4]
  have hpre : ∀ l : List Event,
      orderOK ((if opts.sortBackends = true then
        [Event.buildFrontendGroup, Event.buildBackendMaps, Event.equalsCheck,
         Event.dynUpdate, Event.sortEndpoints]
       else
        [Event.buildFrontendGroup, Event.buildBackendMaps, Event.equalsCheck,
         Event.dynUpdate]) ++ l) 0 = orderOK l 1 := by
    intro l
    split
    · simp only [List.cons_append, List.nil_append]
      rw [orderOK_cons_neutral Event.buildFrontendGroup rfl,
        orderOK_cons_neutral Event.buildBackendMaps rfl,
        orderOK_cons_neutral Event.equalsCheck rfl, orderOK_cons_dynUpdate,
        orderOK_cons_neutral Event.sortEndpoints rfl]
    · simp only [List.cons_append, List.nil_append]
      rw [orderOK_cons_neutral Event.buildFrontendGroup rfl,
        orderOK_cons_neutral Event.buildBackendMaps rfl,
        orderOK_cons_neutral Event.equalsCheck rfl, orderOK_cons_dynUpdate]
  rw [hpre]
  split
  · simp only [List.cons_append, List.nil_append]
    rw [orderOK_cons_writeTmpl, orderOK_cons_neutral (Event.tick "writeTmpl") rfl]
    split
    · next e heq =>
      rw [orderOK_cons_neutral (Event.logError ("error writing configuration: " ++ e)) rfl]
      rfl
    · exact orderOK_updateTail_two opts env i
  · next hcond =>
    have hu : env.updated = true := by
      cases h : env.updated
      · exact absurd (Or.inl h) hcond
      · rfl
    exact orderOK_updateTail_updated hu 1

theorem update_ordering_witness :
    instA.curConfig = some 1 ∧ orderOK (update opts0 envBase instA).2 0 = true :=
  ⟨rfl, update_ordering opts0 envBase instA 1 rfl rfl rfl rfl⟩

/-- C10: `Config` lazily creates the current generation: if the
current slot is absent it constructs a fresh generation, installs it
as current, and returns it; if present it returns that one, so two
`Config` calls with no intervening `Update` return the same
generation; and an `Update` with non-absent current clears the slot so
the next `Config` call returns a fresh generation. -/
theorem config_lazy (i : InstanceState Cfg) :
    (∀ fresh, i.curConfig = none →
      config i fresh = (fresh, { oldConfig := i.oldConfig, curConfig := some fresh })) ∧
    (∀ fresh c, i.curConfig = some c → config i fresh = (c, i)) ∧
    (∀ f1 f2, (config (config i f1).2 f2).1 = (config i f1).1 ∧
      (config (config i f1).2 f2).2 = (config i f1).2) ∧
    (∀ (opts : InstanceOptions) (env : Env Cfg) (cur : Cfg) (f : Cfg),
      i.curConfig = some cur → (config (update opts env i).1 f).1 = f) := by
  refine ⟨?_, ?_, ?_, ?_⟩
  · intro fresh hc
    unfold config
    rw [hc]
  · intro fresh c hc
    unfold config
    rw [hc]
  · intro f1 f2
    cases hc : i.curConfig
    · constructor <;> simp [config, hc]
    · constructor <;> simp [config, hc]
  · intro opts env cur f hc
    rw [update_fst hc]
    rfl

theorem config_lazy_witness :
    instNil.curConfig = none ∧
      config instNil 3 = (3, { oldConfig := some 7, curConfig := some 3 }) ∧
      (config (config instNil 3).2 4).1 = (config instNil 3).1 ∧
      (config (update opts0 envBase instA).1 9).1 = 9 :=
  ⟨rfl, (config_lazy instNil).1 3 rfl, ((config_lazy instNil).2.2.1 3 4).1,
    (config_lazy instA).2.2.2 opts0 envBase 1 9 rfl⟩

end Haproxy
